import Mathlib

/-
Verification of the scraper pipeline in scraper.py.

The embedding models the code as follows.  Fetched HTML pages are given in
parsed form: a page is a list of table elements, a table is a list of tr
rows, a row is a list of td cell texts; anchors of the landing page are the
values of their href attributes (an anchor without href carries none).
Fetched csv content is given as the token stream produced by the csv
reader: a list of rows, each a list of string fields.  Python dicts are
association lists in assignment order whose values may be None; raised
exceptions are the error case of Except; the wall clock and the storage
backend are inputs of the run.
-/

/-- A Python dict with string keys and string-or-None values, kept in
assignment order.  A key that was never assigned is absent from the list. -/
abbrev PyDict := List (String × Option String)

/-- Python d.get(k): the value of the last assignment to k, and None when
the key is absent. -/
def pyGet (d : PyDict) (k : String) : Option String :=
  match List.lookup k d.reverse with
  | some v => v
  | none => none

/-- Python membership test k in d: whether the key was assigned at all,
even when its value is None. -/
def pyHasKey (d : PyDict) (k : String) : Bool :=
  (List.lookup k d.reverse).isSome

/-- Python str.strip: remove leading and trailing whitespace.  (Defined
over the character list so that it evaluates by kernel reduction.) -/
def strip (s : String) : String :=
  ⟨((s.data.dropWhile Char.isWhitespace).reverse.dropWhile Char.isWhitespace).reverse⟩

/-! ## CMSScraper.scrape -/

/-- The dict literal built for one qualifying CMS table row: cell0 and
cell1 are the texts of the first two td cells, and get_text of a cell with
strip set is modelled as strip of the cell text. -/
def cmsRecord (cell0 cell1 : String) : PyDict :=
  [("source", some "cms"),
   ("code", some (strip cell0)),
   ("description", some (strip cell1)),
   ("category", some "CPT/HCPCS"),
   ("taxonomy_code", none),
   ("cpt_code", some (strip cell0))]

/-- One tr of a CMS table: emit a record when the row has at least two td
cells, skip the row otherwise. -/
def cmsRowFn (row : List String) : Option PyDict :=
  match row with
  | cell0 :: cell1 :: _ => some (cmsRecord cell0 cell1)
  | _ => none

/-- One table element: the first tr is taken as the header and skipped. -/
def cmsParseTable (table : List (List String)) : List PyDict :=
  (table.drop 1).filterMap cmsRowFn

/-- CMSScraper.scrape over a fetched page, the page given as the list of
all its table elements. -/
def cmsScrape (tables : List (List (List String))) : List PyDict :=
  tables.flatMap cmsParseTable

/-! ## csv.DictReader -/

/-- dict(zip(fieldnames, row)) with DictReader fill semantics: missing
trailing values get the restval None, extra values fall under the restkey
and are never seen by .get of a named field. -/
def dictRow (fieldnames row : List String) : PyDict :=
  fieldnames.zip (row.map some ++ List.replicate (fieldnames.length - row.length) none)

/-- csv.DictReader over tokenized csv content: the first row gives the
field names, blank rows among the data are skipped. -/
def dictReader (content : List (List String)) : List PyDict :=
  match content with
  | [] => []
  | header :: rest => (rest.filter (fun r => !r.isEmpty)).map (dictRow header)

/-! ## NUCCScraper -/

/-- The dict literal built for one csv row in the first strategy of
NUCCScraper.scrape (direct csv download). -/
def nuccCsvRecord (row : PyDict) : PyDict :=
  [("source", some "nucc"),
   ("code", pyGet row "Code"),
   ("description", pyGet row "Classification"),
   ("category", pyGet row "Specialization"),
   ("taxonomy_code", pyGet row "Code"),
   ("speciality", pyGet row "Definition"),
   ("cpt_code", none)]

/-- The dict literal built for one csv row in NUCCScraper.scrape_from_csv.
Unlike the first strategy it assigns no speciality key. -/
def nuccCsvRecordFromUrl (row : PyDict) : PyDict :=
  [("source", some "nucc"),
   ("code", pyGet row "Code"),
   ("description", pyGet row "Classification"),
   ("category", pyGet row "Specialization"),
   ("taxonomy_code", pyGet row "Code"),
   ("cpt_code", none)]

/-- The csv parse of the first strategy of NUCCScraper.scrape. -/
def nuccStep1Parse (content : List (List String)) : List PyDict :=
  (dictReader content).map nuccCsvRecord

/-- NUCCScraper.scrape_from_csv applied to fetched csv content. -/
def scrape_from_csv (content : List (List String)) : List PyDict :=
  (dictReader content).map nuccCsvRecordFromUrl

/-- The dict literal built for one qualifying row in the HTML table
fallback of NUCCScraper.scrape: the category comes from a third cell when
present and defaults to General otherwise. -/
def nuccHtmlRecord (cell0 cell1 : String) (rest : List String) : PyDict :=
  [("source", some "nucc"),
   ("code", some (strip cell0)),
   ("description", some (strip cell1)),
   ("category", some (match rest with | cell2 :: _ => strip cell2 | [] => "General")),
   ("taxonomy_code", some (strip cell0)),
   ("cpt_code", none)]

/-- One tr in the HTML table fallback. -/
def nuccRowFn (row : List String) : Option PyDict :=
  match row with
  | cell0 :: cell1 :: rest => some (nuccHtmlRecord cell0 cell1 rest)
  | _ => none

/-- One table element in the HTML table fallback (first tr skipped). -/
def nuccParseTable (table : List (List String)) : List PyDict :=
  (table.drop 1).filterMap nuccRowFn

/-- The HTML table fallback over all tables of the landing page. -/
def nuccHtmlParse (tables : List (List (List String))) : List PyDict :=
  tables.flatMap nuccParseTable

/-- Whether pat occurs at the head of l. -/
def startsWithL : List Char → List Char → Bool
  | [], _ => true
  | _ :: _, [] => false
  | a :: pat, b :: l => a == b && startsWithL pat l

/-- Whether pat occurs anywhere in l. -/
def containsL (pat : List Char) : List Char → Bool
  | [] => pat.isEmpty
  | b :: l => startsWithL pat (b :: l) || containsL pat l

/-- Python substring test pat in s on strings. -/
def pyIn (pat s : String) : Bool :=
  containsL pat.data s.data

/-- Python s.startswith(pre).  (Defined over the character lists so that
it evaluates by kernel reduction.) -/
def pyStartsWith (s pre : String) : Bool :=
  startsWithL pre.data s.data

/-- The href test of the soup.find call: the anchor has an href and the
href contains the marker .csv as a substring. -/
def isCsvHref (href : String) : Bool :=
  pyIn ".csv" href

/-- Whether an anchor (the value of its href attribute, none when absent)
passes the href test. -/
def anchorMatch (a : Option String) : Bool :=
  match a with
  | some h => isCsvHref h
  | none => false

/-- soup.find over the anchors in document order: the href of the first
anchor passing the test, none when no anchor passes. -/
def findCsvLink : List (Option String) → Option String
  | [] => none
  | a :: rest =>
    match a with
    | some h => if isCsvHref h then some h else findCsvLink rest
    | none => findCsvLink rest

/-- The discovered url is made absolute by prepending the base url unless
it already starts with http. -/
def resolveUrl (base href : String) : String :=
  if pyStartsWith href "http" then href else base ++ href

/-- The parsed landing page: the anchors in document order and the table
elements. -/
structure LandingPage where
  anchors : List (Option String)
  tables : List (List (List String))
  deriving DecidableEq

/-- The external world seen by NUCCScraper.scrape: the outcome of the
fixed csv url fetch (fetch plus csv tokenization), of the landing page
fetch, and of a fetch of any discovered csv url.  An error value is a
raised exception. -/
structure NuccWorld where
  step1 : Except String (List (List String))
  landing : Except String LandingPage
  fetchCsv : String → Except String (List (List String))

def nucc_base_url : String := "https://taxonomy.nucc.org/"

def nucc_csv_url : String :=
  "https://taxonomy.nucc.org/cs/groups/public/documents/datalist/nucc_taxonomy_234.csv"

/-- NUCCScraper.scrape: the returned rows (ok) or the raised exception
(error), paired with the list of urls requested, in request order.  A
failure of the first strategy falls into the except block, which fetches
the landing page; when a csv link is found there, scrape_from_csv is
called on the resolved url and any exception it raises propagates; the
HTML table fallback runs only when no csv link is found. -/
def nuccScrape (w : NuccWorld) : Except String (List PyDict) × List String :=
  match w.step1 with
  | Except.ok content => (Except.ok (nuccStep1Parse content), [nucc_csv_url])
  | Except.error _ =>
    match w.landing with
    | Except.error e => (Except.error e, [nucc_csv_url, nucc_base_url])
    | Except.ok page =>
      match findCsvLink page.anchors with
      | some href =>
        let url := resolveUrl nucc_base_url href
        ((w.fetchCsv url).map scrape_from_csv, [nucc_csv_url, nucc_base_url, url])
      | none => (Except.ok (nuccHtmlParse page.tables), [nucc_csv_url, nucc_base_url])

/-! ## GCSUploader and main -/

/-- CMSScraper.scrape as seen by main: the fetch outcome mapped through
the table parse. -/
def cmsAdapter (fetched : Except String (List (List (List String)))) :
    Except String (List PyDict) :=
  fetched.map cmsScrape

/-- The value returned by main on success. -/
structure RunResult where
  cms_codes_count : Nat
  nucc_codes_count : Nat
  total_codes_count : Nat
  combined_url : String
  cms_url : String
  nucc_url : String
  deriving DecidableEq

/-- One upload_json call as observed from outside: the filename it built,
the payload it was given, and whether the store succeeded. -/
structure StoreCall where
  filename : String
  payload : List PyDict
  success : Bool
  deriving DecidableEq

/-- The filename pattern built by upload_json. -/
def artifactName (pre ts : String) : String :=
  pre ++ "_" ++ ts ++ ".json"

/-- GCSUploader.upload_json: reads the clock, builds the filename, asks
the store to persist, and raises on failure. -/
def upload_json (ts : String) (store : String → Except String String)
    (data : List PyDict) (pre : String) : Except String String × StoreCall :=
  match store (artifactName pre ts) with
  | Except.ok loc => (Except.ok loc, ⟨artifactName pre ts, data, true⟩)
  | Except.error e => (Except.error e, ⟨artifactName pre ts, data, false⟩)

/-- The external world seen by main: the outcome of the CMS page fetch
(the page given as its tables), the NUCC world, the wall clock reading at
each upload_json call (indexed by call order), and the store. -/
structure World where
  cmsFetch : Except String (List (List (List String)))
  nucc : NuccWorld
  clock : Nat → String
  store : String → Except String String

/-- main of scraper.py: scrape CMS, scrape NUCC, concatenate CMS then
NUCC, upload the combined dataset and then the two per-source datasets.
Any raised exception aborts the remainder.  The second component is the
list of upload_json calls made, in order. -/
def mainRun (w : World) : Except String RunResult × List StoreCall :=
  match cmsAdapter w.cmsFetch with
  | Except.error e => (Except.error e, [])
  | Except.ok cms_codes =>
    match (nuccScrape w.nucc).1 with
    | Except.error e => (Except.error e, [])
    | Except.ok nucc_codes =>
      let all_codes := cms_codes ++ nucc_codes
      match upload_json (w.clock 0) w.store all_codes "all_codes" with
      | (Except.error e, s1) => (Except.error e, [s1])
      | (Except.ok u1, s1) =>
        match upload_json (w.clock 1) w.store cms_codes "cms_codes" with
        | (Except.error e, s2) => (Except.error e, [s1, s2])
        | (Except.ok u2, s2) =>
          match upload_json (w.clock 2) w.store nucc_codes "nucc_codes" with
          | (Except.error e, s3) => (Except.error e, [s1, s2, s3])
          | (Except.ok u3, s3) =>
            (Except.ok ⟨cms_codes.length, nucc_codes.length, all_codes.length, u1, u2, u3⟩,
             [s1, s2, s3])

/-- A record is emitted by the pipeline when some CMS page yields it or
some NUCC world yields it among the scraped rows. -/
def EmittedRecord (r : PyDict) : Prop :=
  (∃ tables, r ∈ cmsScrape tables) ∨
  (∃ w rs, (nuccScrape w).1 = Except.ok rs ∧ r ∈ rs)

/-! ## Claim C1: field presence per source -/

/-- Claim C1, counterexample to the claim as stated.  A record emitted by
the CMS path of the pipeline does carry a taxonomy_code field: the key is
assigned (to None) in the dict literal, so it is not the case that a cms
record has no taxonomy_code field and that exactly one of the two fields
is present. -/
theorem cms_record_has_taxonomy_key :
    cmsScrape [[["Code", "Description"], ["99213", "Office visit"]]]
      = [cmsRecord "99213" "Office visit"] ∧
    pyHasKey (cmsRecord "99213" "Office visit") "taxonomy_code" = true ∧
    pyGet (cmsRecord "99213" "Office visit") "taxonomy_code" = none ∧
    pyHasKey (cmsRecord "99213" "Office visit") "cpt_code" = true := by
  exact ⟨rfl, rfl, rfl, rfl⟩

/-- Claim C1 (amended): every record emitted by the pipeline assigns both
the taxonomy_code and the cpt_code keys; a record with source cms has
cpt_code equal to its code, a non-null code, and a null taxonomy_code,
and a record with source nucc has taxonomy_code equal to its code and a
null cpt_code (so at most one of the two is non-null, and exactly one
unless a NUCC csv row has a null code, in which case both are null). -/
theorem record_field_presence (r : PyDict) (h : EmittedRecord r) :
    pyHasKey r "taxonomy_code" = true ∧ pyHasKey r "cpt_code" = true ∧
    ((pyGet r "source" = some "cms" ∧
      pyGet r "cpt_code" = pyGet r "code" ∧ (pyGet r "code").isSome = true ∧
      pyGet r "taxonomy_code" = none) ∨
     (pyGet r "source" = some "nucc" ∧
      pyGet r "taxonomy_code" = pyGet r "code" ∧
      pyGet r "cpt_code" = none)) := by
  rcases h with ⟨tables, hmem⟩ | ⟨w, rs, hok, hmem⟩
  · simp only [cmsScrape] at hmem
    rw [List.mem_flatMap] at hmem
    obtain ⟨t, _, hmem⟩ := hmem
    simp only [cmsParseTable] at hmem
    rw [List.mem_filterMap] at hmem
    obtain ⟨row, _, hfn⟩ := hmem
    rcases row with _ | ⟨c0, _ | ⟨c1, tail⟩⟩
    · simp [cmsRowFn] at hfn
    · simp [cmsRowFn] at hfn
    · simp only [cmsRowFn] at hfn
      injection hfn with hr
      subst hr
      exact ⟨rfl, rfl, Or.inl ⟨rfl, rfl, rfl, rfl⟩⟩
  · cases hs1 : w.step1 with
    | ok content =>
      simp only [nuccScrape, hs1] at hok
      injection hok with hok
      subst hok
      simp only [nuccStep1Parse] at hmem
      rw [List.mem_map] at hmem
      obtain ⟨row, _, hr⟩ := hmem
      subst hr
      exact ⟨rfl, rfl, Or.inr ⟨rfl, rfl, rfl⟩⟩
    | error e1 =>
      cases hs2 : w.landing with
      | error e2 =>
        simp only [nuccScrape, hs1, hs2] at hok
        exact Except.noConfusion hok
      | ok page =>
        cases hfind : findCsvLink page.anchors with
        | none =>
          simp only [nuccScrape, hs1, hs2, hfind] at hok
          injection hok with hok
          subst hok
          simp only [nuccHtmlParse] at hmem
          rw [List.mem_flatMap] at hmem
          obtain ⟨t, _, hmem⟩ := hmem
          simp only [nuccParseTable] at hmem
          rw [List.mem_filterMap] at hmem
          obtain ⟨row, _, hfn⟩ := hmem
          rcases row with _ | ⟨c0, _ | ⟨c1, tail⟩⟩
          · simp [nuccRowFn] at hfn
          · simp [nuccRowFn] at hfn
          · simp only [nuccRowFn] at hfn
            injection hfn with hr
            subst hr
            exact ⟨rfl, rfl, Or.inr ⟨rfl, rfl, rfl⟩⟩
        | some href =>
          cases hf : w.fetchCsv (resolveUrl nucc_base_url href) with
          | error e3 =>
            simp only [nuccScrape, hs1, hs2, hfind, hf, Except.map] at hok
            exact Except.noConfusion hok
          | ok content =>
            simp only [nuccScrape, hs1, hs2, hfind, hf, Except.map] at hok
            injection hok with hok
            subst hok
            simp only [scrape_from_csv] at hmem
            rw [List.mem_map] at hmem
            obtain ⟨row, _, hr⟩ := hmem
            subst hr
            exact ⟨rfl, rfl, Or.inr ⟨rfl, rfl, rfl⟩⟩

/-- Claim C1, witness: the amended statement evaluated on a concrete CMS
record emitted from a one-row table. -/
theorem record_field_presence_witness :
    pyHasKey (cmsRecord "99213" "Office visit") "taxonomy_code" = true ∧
    pyHasKey (cmsRecord "99213" "Office visit") "cpt_code" = true ∧
    ((pyGet (cmsRecord "99213" "Office visit") "source" = some "cms" ∧
      pyGet (cmsRecord "99213" "Office visit") "cpt_code"
        = pyGet (cmsRecord "99213" "Office visit") "code" ∧
      (pyGet (cmsRecord "99213" "Office visit") "code").isSome = true ∧
      pyGet (cmsRecord "99213" "Office visit") "taxonomy_code" = none) ∨
     (pyGet (cmsRecord "99213" "Office visit") "source" = some "nucc" ∧
      pyGet (cmsRecord "99213" "Office visit") "taxonomy_code"
        = pyGet (cmsRecord "99213" "Office visit") "code" ∧
      pyGet (cmsRecord "99213" "Office visit") "cpt_code" = none)) :=
  record_field_presence (cmsRecord "99213" "Office visit")
    (Or.inl ⟨[[["Code", "Description"], ["99213", "Office visit"]]], by decide⟩)

/-! ## Claim C2: the CMS table parse -/

/-- Claim C2, counterexample to the claim as stated.  A data row with two
cells whose first cell text is all whitespace is emitted with an empty
code, so the emitted rows do not all have non-empty code. -/
theorem cms_whitespace_code_cex :
    cmsScrape [[["H1", "H2"], ["   ", "Some description"]]]
      = [cmsRecord "   " "Some description"] ∧
    pyGet (cmsRecord "   " "Some description") "code" = some "" := by
  exact ⟨rfl, rfl⟩

/-- On any list of rows, the per-row parse keeps exactly the rows with at
least two cells, each mapped to its record. -/
theorem cms_rows_filter : ∀ (rows : List (List String)),
    rows.filterMap cmsRowFn
      = (rows.filter (fun row => 2 ≤ row.length)).map
          (fun row => cmsRecord (row.headD "") ((row.drop 1).headD "")) := by
  intro rows
  induction rows with
  | nil => rfl
  | cons row rest ih =>
    rcases row with _ | ⟨c0, _ | ⟨c1, tail⟩⟩
    · rw [List.filterMap_cons]
      simp only [cmsRowFn]
      rw [List.filter_cons_of_neg (by simp)]
      exact ih
    · rw [List.filterMap_cons]
      simp only [cmsRowFn]
      rw [List.filter_cons_of_neg (by simp)]
      exact ih
    · rw [List.filterMap_cons]
      simp only [cmsRowFn]
      rw [List.filter_cons_of_pos (by simp), List.map_cons, ih]
      rfl

/-- Claim C2 (amended): on every input, all tables are scanned and
unioned, within each table the first row is skipped as a header, and
exactly the rows with at least two cells are emitted — rows with fewer
than two cells never are — with code and description equal to the first
and second cell text with surrounding whitespace stripped; hence on an
input whose data rows all have at least two cells the adapter emits
exactly one raw row per data row.  The code is empty (not non-empty)
when the first cell text is all whitespace. -/
theorem cms_scrape_table_rows (tables : List (List (List String))) :
    cmsScrape tables
      = tables.flatMap (fun t =>
          ((t.drop 1).filter (fun row => 2 ≤ row.length)).map
            (fun row => cmsRecord (row.headD "") ((row.drop 1).headD ""))) ∧
    ((∀ t ∈ tables, ∀ row ∈ t.drop 1, 2 ≤ row.length) →
      (cmsScrape tables).length = (tables.map (fun t => (t.drop 1).length)).sum) := by
  have hmain : cmsScrape tables
      = tables.flatMap (fun t =>
          ((t.drop 1).filter (fun row => 2 ≤ row.length)).map
            (fun row => cmsRecord (row.headD "") ((row.drop 1).headD ""))) := by
    simp only [cmsScrape, cmsParseTable]
    congr 1
    funext t
    exact cms_rows_filter (t.drop 1)
  refine ⟨hmain, fun h => ?_⟩
  rw [hmain, List.length_flatMap]
  simp only [Function.comp_def, List.length_map]
  congr 1
  apply List.map_congr_left
  intro t ht
  exact congrArg List.length
    (List.filter_eq_self.mpr (fun row hrow => by simpa using h t ht row hrow))

/-- Claim C2, witness: the amended statement evaluated on a one-table
page whose data rows are a one-cell row (dropped) and a two-cell row
(emitted with stripped cell texts). -/
theorem cms_scrape_table_rows_witness :
    cmsScrape [[["H1", "H2"], ["lonely cell"], [" 99213 ", " Office visit "]]]
      = [[["H1", "H2"], ["lonely cell"], [" 99213 ", " Office visit "]]].flatMap
          (fun t =>
            ((t.drop 1).filter (fun row => 2 ≤ row.length)).map
              (fun row => cmsRecord (row.headD "") ((row.drop 1).headD ""))) ∧
    ((∀ t ∈ [[["H1", "H2"], ["lonely cell"], [" 99213 ", " Office visit "]]],
        ∀ row ∈ t.drop 1, 2 ≤ row.length) →
      (cmsScrape [[["H1", "H2"], ["lonely cell"], [" 99213 ", " Office visit "]]]).length
        = ([[["H1", "H2"], ["lonely cell"], [" 99213 ", " Office visit "]]].map
            (fun t => (t.drop 1).length)).sum) :=
  cms_scrape_table_rows [[["H1", "H2"], ["lonely cell"], [" 99213 ", " Office visit "]]]

/-! ## Claim C3: the NUCC fallback chain -/

/-- Claim C3, counterexample to the claim as stated.  In a world where the
direct csv fetch fails, the landing page carries a csv link, and the fetch
of the discovered csv fails, the adapter raises — even though the third
strategy (the HTML table parse of the already fetched landing page) would
have produced a row.  So a step-2 failure does not fall through to the
next strategy, and the adapter can raise without all three strategies
having failed. -/
theorem nucc_step2_failure_raises_cex :
    (nuccScrape ⟨Except.error "HTTP 403",
        Except.ok ⟨[some "data/tax.csv"], [[["Code", "Name"], ["101Y00000X", "Counselor"]]]⟩,
        fun _ => Except.error "HTTP 404"⟩).1
      = Except.error "HTTP 404" ∧
    nuccHtmlParse [[["Code", "Name"], ["101Y00000X", "Counselor"]]]
      = [nuccHtmlRecord "101Y00000X" "Counselor" []] := by
  exact ⟨rfl, rfl⟩

/-- Claim C3 (amended): a failure of the direct csv strategy is caught and
falls through to the landing page fetch; from there failures propagate: if
the landing page fetch fails the adapter raises that error, and if a csv
link is discovered and the fetch of the resolved url fails the adapter
raises that error without attempting the HTML table strategy — the HTML
table strategy runs only when the landing page is fetched and contains no
csv link. -/
theorem nucc_fallback_behaviour (w : NuccWorld) (e e1 : String) (page : LandingPage)
    (href e2 : String)
    (h1 : w.step1 = Except.error e) :
    (w.landing = Except.error e1 → (nuccScrape w).1 = Except.error e1) ∧
    (w.landing = Except.ok page → findCsvLink page.anchors = none →
      (nuccScrape w).1 = Except.ok (nuccHtmlParse page.tables)) ∧
    (w.landing = Except.ok page → findCsvLink page.anchors = some href →
      w.fetchCsv (resolveUrl nucc_base_url href) = Except.error e2 →
      (nuccScrape w).1 = Except.error e2) := by
  refine ⟨fun hl => ?_, fun hl hnone => ?_, fun hl hsome hfetch => ?_⟩
  · simp only [nuccScrape, h1, hl]
  · simp only [nuccScrape, h1, hl, hnone]
  · simp only [nuccScrape, h1, hl, hsome, hfetch, Except.map]

/-- Claim C3, witness: the amended statement evaluated on a concrete world
in which the direct csv fetch fails and then the landing page fetch fails
too, so the adapter raises the landing page error. -/
theorem nucc_fallback_behaviour_witness :
    ((⟨Except.error "HTTP 403", Except.error "HTTP 503",
        fun _ => Except.error "HTTP 404"⟩ : NuccWorld).landing = Except.error "HTTP 503" →
      (nuccScrape ⟨Except.error "HTTP 403", Except.error "HTTP 503",
          fun _ => Except.error "HTTP 404"⟩).1 = Except.error "HTTP 503") ∧
    ((⟨Except.error "HTTP 403", Except.error "HTTP 503",
        fun _ => Except.error "HTTP 404"⟩ : NuccWorld).landing
        = Except.ok ⟨[some "data/tax.csv"], []⟩ →
      findCsvLink [some "data/tax.csv"] = none →
      (nuccScrape ⟨Except.error "HTTP 403", Except.error "HTTP 503",
          fun _ => Except.error "HTTP 404"⟩).1 = Except.ok (nuccHtmlParse [])) ∧
    ((⟨Except.error "HTTP 403", Except.error "HTTP 503",
        fun _ => Except.error "HTTP 404"⟩ : NuccWorld).landing
        = Except.ok ⟨[some "data/tax.csv"], []⟩ →
      findCsvLink [some "data/tax.csv"] = some "data/tax.csv" →
      (⟨Except.error "HTTP 403", Except.error "HTTP 503",
          fun _ => Except.error "HTTP 404"⟩ : NuccWorld).fetchCsv
          (resolveUrl nucc_base_url "data/tax.csv") = Except.error "HTTP 404" →
      (nuccScrape ⟨Except.error "HTTP 403", Except.error "HTTP 503",
          fun _ => Except.error "HTTP 404"⟩).1 = Except.error "HTTP 404") :=
  nucc_fallback_behaviour
    ⟨Except.error "HTTP 403", Except.error "HTTP 503", fun _ => Except.error "HTTP 404"⟩
    "HTTP 403" "HTTP 503" ⟨[some "data/tax.csv"], []⟩ "data/tax.csv" "HTTP 404" rfl

/-! ## Claim C4: the NUCC step-1 field mapping -/

/-- Claim C4, counterexample to the claim as stated.  A csv data row whose
Code field is empty is not dropped by the step-1 parse: it yields a raw
row whose code is the empty string. -/
theorem nucc_empty_code_not_dropped_cex :
    (nuccStep1Parse [["Code", "Classification", "Specialization", "Definition"],
        ["", "Family Medicine", "General Practice", "Some definition"]]).map
      (fun r => pyGet r "code") = [some ""] := by
  decide

/-- Claim C4 (amended): the step-1 parse maps the header-named fields Code,
Classification, Specialization, Definition to code, description, category,
speciality respectively, but it drops no row: every row read by the csv
DictReader yields exactly one raw row, including rows whose Code field is
empty or missing (which yield a null or empty code).  The concrete example
row yields exactly one raw row with code 207Q00000X, description Family
Medicine and category General Practice. -/
theorem nucc_step1_field_mapping (content : List (List String)) :
    (nuccStep1Parse content).map
        (fun r => (pyGet r "code", pyGet r "description", pyGet r "category",
                   pyGet r "speciality"))
      = (dictReader content).map
        (fun row => (pyGet row "Code", pyGet row "Classification",
                     pyGet row "Specialization", pyGet row "Definition")) ∧
    (nuccStep1Parse content).length = (dictReader content).length ∧
    (nuccStep1Parse [["Code", "Classification", "Specialization", "Definition"],
        ["207Q00000X", "Family Medicine", "General Practice", "A physician who..."]]).map
        (fun r => (pyGet r "code", pyGet r "description", pyGet r "category"))
      = [(some "207Q00000X", some "Family Medicine", some "General Practice")] := by
  refine ⟨?_, by simp [nuccStep1Parse], by decide⟩
  simp only [nuccStep1Parse]
  generalize dictReader content = rows
  induction rows with
  | nil => rfl
  | cons row rest ih =>
    simp only [List.map_cons, ih]
    rfl

/-! ## Claim C5: step-2 parse versus step-1 parse -/

/-- Claim C5, counterexample to the claim as stated.  On the same csv
content the step-1 parse and the scrape_from_csv parse do not produce the
same rows field for field: the step-1 row assigns a speciality field
(from Definition) which the scrape_from_csv row lacks entirely. -/
theorem nucc_step2_speciality_cex :
    nuccStep1Parse [["Code", "Classification", "Specialization", "Definition"],
        ["207Q00000X", "Family Medicine", "General Practice", "A physician who..."]]
      ≠ scrape_from_csv [["Code", "Classification", "Specialization", "Definition"],
        ["207Q00000X", "Family Medicine", "General Practice", "A physician who..."]] ∧
    (nuccStep1Parse [["Code", "Classification", "Specialization", "Definition"],
        ["207Q00000X", "Family Medicine", "General Practice", "A physician who..."]]).map
      (fun r => pyGet r "speciality") = [some "A physician who..."] ∧
    (scrape_from_csv [["Code", "Classification", "Specialization", "Definition"],
        ["207Q00000X", "Family Medicine", "General Practice", "A physician who..."]]).map
      (fun r => pyHasKey r "speciality") = [false] := by
  decide

/-- Claim C5 (amended): the scrape_from_csv parse uses the same field
mapping as the step-1 parse for source, code, description, category,
taxonomy_code and cpt_code — on any content the two parses agree row for
row on those six fields — but it never assigns the speciality field that
the step-1 parse fills from Definition. -/
theorem nucc_csv_parses_agree_except_speciality (content : List (List String)) :
    (scrape_from_csv content).map
        (fun r => (pyGet r "source", pyGet r "code", pyGet r "description",
                   pyGet r "category", pyGet r "taxonomy_code", pyGet r "cpt_code"))
      = (nuccStep1Parse content).map
        (fun r => (pyGet r "source", pyGet r "code", pyGet r "description",
                   pyGet r "category", pyGet r "taxonomy_code", pyGet r "cpt_code")) ∧
    (scrape_from_csv content).all (fun r => !pyHasKey r "speciality") = true ∧
    (nuccStep1Parse content).all (fun r => pyHasKey r "speciality") = true := by
  refine ⟨?_, ?_, ?_⟩
  · simp only [scrape_from_csv, nuccStep1Parse]
    generalize dictReader content = rows
    induction rows with
    | nil => rfl
    | cons row rest ih => simp only [List.map_cons, ih]; rfl
  · simp only [scrape_from_csv]
    generalize dictReader content = rows
    induction rows with
    | nil => rfl
    | cons row rest ih => simp only [List.map_cons, List.all_cons, ih]; rfl
  · simp only [nuccStep1Parse]
    generalize dictReader content = rows
    induction rows with
    | nil => rfl
    | cons row rest ih => simp only [List.map_cons, List.all_cons, ih]; rfl

/-! ## Claim C6: adapter failure means zero store calls -/

/-- Claim C6 (confirmed): when either adapter raises an unrecovered error,
mainRun makes no upload_json call at all — no artifact of any of the three
datasets is handed to storage. -/
theorem adapter_failure_no_store (w : World) (e : String)
    (h : cmsAdapter w.cmsFetch = Except.error e ∨
         (nuccScrape w.nucc).1 = Except.error e) :
    (mainRun w).2 = [] := by
  rcases h with h | h
  · simp [mainRun, h]
  · cases hc : cmsAdapter w.cmsFetch with
    | error e2 => simp [mainRun, hc]
    | ok cms => simp [mainRun, hc, h]

/-- Claim C6, witness: a concrete world in which all three NUCC strategies
fail, evaluated through mainRun. -/
theorem adapter_failure_no_store_witness :
    (mainRun ⟨Except.ok [[["Code", "Description"], ["99213", "Office visit"]]],
        ⟨Except.error "HTTP 500", Except.error "HTTP 500", fun _ => Except.error "HTTP 500"⟩,
        fun _ => "20240101_120000",
        fun _ => Except.ok "file:///output/x.json"⟩).2 = [] :=
  adapter_failure_no_store
    ⟨Except.ok [[["Code", "Description"], ["99213", "Office visit"]]],
      ⟨Except.error "HTTP 500", Except.error "HTTP 500", fun _ => Except.error "HTTP 500"⟩,
      fun _ => "20240101_120000",
      fun _ => Except.ok "file:///output/x.json"⟩
    "HTTP 500" (Or.inr rfl)

/-! ## Claim C7: counts and the combined dataset -/

/-- Claim C7 (confirmed): on a successful run the reported total count is
the sum of the two per-source counts, both per-source counts are the
lengths of the adapter outputs, and the combined dataset (the payload of
the first store call) is exactly the CMS records followed by the NUCC
records, its length equal to the total count. -/
theorem run_counts (w : World) (c n : List PyDict) (res : RunResult)
    (h1 : cmsAdapter w.cmsFetch = Except.ok c)
    (h2 : (nuccScrape w.nucc).1 = Except.ok n)
    (hres : (mainRun w).1 = Except.ok res) :
    res.total_codes_count = res.cms_codes_count + res.nucc_codes_count ∧
    res.cms_codes_count = c.length ∧
    res.nucc_codes_count = n.length ∧
    ((mainRun w).2.map StoreCall.payload).head? = some (c ++ n) ∧
    res.total_codes_count = (c ++ n).length := by
  simp only [mainRun, upload_json, h1, h2] at hres ⊢
  cases hu1 : w.store (artifactName "all_codes" (w.clock 0)) with
  | error e =>
    simp only [hu1] at hres
    exact Except.noConfusion hres
  | ok u1 =>
    simp only [hu1] at hres ⊢
    cases hu2 : w.store (artifactName "cms_codes" (w.clock 1)) with
    | error e =>
      simp only [hu2] at hres
      exact Except.noConfusion hres
    | ok u2 =>
      simp only [hu2] at hres ⊢
      cases hu3 : w.store (artifactName "nucc_codes" (w.clock 2)) with
      | error e =>
        simp only [hu3] at hres
        exact Except.noConfusion hres
      | ok u3 =>
        simp only [hu3] at hres ⊢
        injection hres with hres
        subst hres
        simp [List.length_append]

/-- Claim C7, witness: a fully successful concrete run with one CMS record
and one NUCC record. -/
theorem run_counts_witness :
    (2 : Nat) = 1 + 1 ∧
    (1 : Nat) = [cmsRecord "99213" "Office visit"].length ∧
    (1 : Nat) = [nuccCsvRecord (dictRow ["Code", "Classification", "Specialization", "Definition"]
        ["207Q00000X", "Family Medicine", "General Practice", "A physician who..."])].length ∧
    ((mainRun ⟨Except.ok [[["Code", "Description"], ["99213", "Office visit"]]],
        ⟨Except.ok [["Code", "Classification", "Specialization", "Definition"],
            ["207Q00000X", "Family Medicine", "General Practice", "A physician who..."]],
          Except.error "unused", fun _ => Except.error "unused"⟩,
        fun _ => "20240101_120000",
        fun _ => Except.ok "file:///output/x.json"⟩).2.map StoreCall.payload).head?
      = some ([cmsRecord "99213" "Office visit"]
          ++ [nuccCsvRecord (dictRow ["Code", "Classification", "Specialization", "Definition"]
                ["207Q00000X", "Family Medicine", "General Practice", "A physician who..."])]) ∧
    (2 : Nat) = ([cmsRecord "99213" "Office visit"]
        ++ [nuccCsvRecord (dictRow ["Code", "Classification", "Specialization", "Definition"]
              ["207Q00000X", "Family Medicine", "General Practice", "A physician who..."])]).length :=
  run_counts
    ⟨Except.ok [[["Code", "Description"], ["99213", "Office visit"]]],
      ⟨Except.ok [["Code", "Classification", "Specialization", "Definition"],
          ["207Q00000X", "Family Medicine", "General Practice", "A physician who..."]],
        Except.error "unused", fun _ => Except.error "unused"⟩,
      fun _ => "20240101_120000",
      fun _ => Except.ok "file:///output/x.json"⟩
    [cmsRecord "99213" "Office visit"]
    [nuccCsvRecord (dictRow ["Code", "Classification", "Specialization", "Definition"]
        ["207Q00000X", "Family Medicine", "General Practice", "A physician who..."])]
    ⟨1, 1, 2, "file:///output/x.json", "file:///output/x.json", "file:///output/x.json"⟩
    rfl rfl rfl

/-! ## Claim C8: artifact naming and the per-call timestamp -/

/-- Claim C8, counterexample to the claim as stated.  A successful run in
which the wall clock ticks to the next second between the first and the
second upload_json call produces three artifacts whose filenames do not
carry one common timestamp: upload_json reads the clock anew at every
call. -/
theorem artifact_timestamps_differ_cex :
    (mainRun ⟨Except.ok [], ⟨Except.ok [], Except.error "unused", fun _ => Except.error "unused"⟩,
        fun i => match i with | 0 => "20240101_235959" | _ => "20240102_000000",
        fun _ => Except.ok "file:///output/x.json"⟩).1
      = Except.ok ⟨0, 0, 0, "file:///output/x.json", "file:///output/x.json",
          "file:///output/x.json"⟩ ∧
    (mainRun ⟨Except.ok [], ⟨Except.ok [], Except.error "unused", fun _ => Except.error "unused"⟩,
        fun i => match i with | 0 => "20240101_235959" | _ => "20240102_000000",
        fun _ => Except.ok "file:///output/x.json"⟩).2.map StoreCall.filename
      = ["all_codes_20240101_235959.json", "cms_codes_20240102_000000.json",
         "nucc_codes_20240102_000000.json"] ∧
    ("20240101_235959" : String) ≠ "20240102_000000" := by
  refine ⟨rfl, rfl, by decide⟩

/-- Claim C8 (amended): on a successful run exactly three artifacts are
stored, named all_codes, cms_codes and nucc_codes followed by an
underscore, a timestamp and .json — but each timestamp is the wall clock
reading taken at that upload_json call, so the three coincide only when
the clock reads the same at all three calls, which the code does not
enforce. -/
theorem artifact_naming (w : World) (c n : List PyDict) (res : RunResult)
    (h1 : cmsAdapter w.cmsFetch = Except.ok c)
    (h2 : (nuccScrape w.nucc).1 = Except.ok n)
    (hres : (mainRun w).1 = Except.ok res) :
    (mainRun w).2.map StoreCall.filename
      = [artifactName "all_codes" (w.clock 0),
         artifactName "cms_codes" (w.clock 1),
         artifactName "nucc_codes" (w.clock 2)] := by
  simp only [mainRun, upload_json, h1, h2] at hres ⊢
  cases hu1 : w.store (artifactName "all_codes" (w.clock 0)) with
  | error e =>
    simp only [hu1] at hres
    exact Except.noConfusion hres
  | ok u1 =>
    simp only [hu1] at hres ⊢
    cases hu2 : w.store (artifactName "cms_codes" (w.clock 1)) with
    | error e =>
      simp only [hu2] at hres
      exact Except.noConfusion hres
    | ok u2 =>
      simp only [hu2] at hres ⊢
      cases hu3 : w.store (artifactName "nucc_codes" (w.clock 2)) with
      | error e =>
        simp only [hu3] at hres
        exact Except.noConfusion hres
      | ok u3 => simp only [hu3]; rfl

/-- Claim C8, witness: the amended statement on a successful concrete run
whose clock is constant. -/
theorem artifact_naming_witness :
    (mainRun ⟨Except.ok [], ⟨Except.ok [], Except.error "unused", fun _ => Except.error "unused"⟩,
        fun _ => "20240101_120000",
        fun _ => Except.ok "file:///output/x.json"⟩).2.map StoreCall.filename
      = [artifactName "all_codes" "20240101_120000",
         artifactName "cms_codes" "20240101_120000",
         artifactName "nucc_codes" "20240101_120000"] :=
  artifact_naming
    ⟨Except.ok [], ⟨Except.ok [], Except.error "unused", fun _ => Except.error "unused"⟩,
      fun _ => "20240101_120000",
      fun _ => Except.ok "file:///output/x.json"⟩
    [] [] ⟨0, 0, 0, "file:///output/x.json", "file:///output/x.json", "file:///output/x.json"⟩
    rfl rfl rfl

/-! ## Claim C9: storage failure and partial output -/

/-- Claim C9, counterexample to the claim as stated.  In a run where the
store call for the cms_codes artifact fails, the run raises — but the
all_codes artifact stored by the first call stays persisted, so a caller
does observe a proper non-empty subset of the three-file set. -/
theorem partial_storage_cex :
    (mainRun ⟨Except.ok [[["Code", "Description"], ["99213", "Office visit"]]],
        ⟨Except.ok [], Except.error "unused", fun _ => Except.error "unused"⟩,
        fun _ => "20240101_120000",
        fun f => if pyStartsWith f "cms_codes" then Except.error "disk full"
                 else Except.ok ("file:///output/" ++ f)⟩).1
      = Except.error "disk full" ∧
    (mainRun ⟨Except.ok [[["Code", "Description"], ["99213", "Office visit"]]],
        ⟨Except.ok [], Except.error "unused", fun _ => Except.error "unused"⟩,
        fun _ => "20240101_120000",
        fun f => if pyStartsWith f "cms_codes" then Except.error "disk full"
                 else Except.ok ("file:///output/" ++ f)⟩).2.map
      (fun s => (s.filename, s.success))
      = [("all_codes_20240101_120000.json", true),
         ("cms_codes_20240101_120000.json", false)] := by
  exact ⟨rfl, rfl⟩

/-- Claim C9 (amended): whichever of the three store calls fails first,
the run raises that error and no later store call is made — but artifacts
persisted by earlier successful calls are not rolled back, so when the
cms_codes or the nucc_codes store fails the caller observes a proper
non-empty subset of the combined/per-source file set. -/
theorem storage_failure_behaviour (w : World) (c n : List PyDict) (u1 u2 e : String)
    (h1 : cmsAdapter w.cmsFetch = Except.ok c)
    (h2 : (nuccScrape w.nucc).1 = Except.ok n) :
    (w.store (artifactName "all_codes" (w.clock 0)) = Except.error e →
      (mainRun w).1 = Except.error e ∧
      (mainRun w).2.map (fun s => (s.filename, s.success))
        = [(artifactName "all_codes" (w.clock 0), false)]) ∧
    (w.store (artifactName "all_codes" (w.clock 0)) = Except.ok u1 →
      w.store (artifactName "cms_codes" (w.clock 1)) = Except.error e →
      (mainRun w).1 = Except.error e ∧
      (mainRun w).2.map (fun s => (s.filename, s.success))
        = [(artifactName "all_codes" (w.clock 0), true),
           (artifactName "cms_codes" (w.clock 1), false)]) ∧
    (w.store (artifactName "all_codes" (w.clock 0)) = Except.ok u1 →
      w.store (artifactName "cms_codes" (w.clock 1)) = Except.ok u2 →
      w.store (artifactName "nucc_codes" (w.clock 2)) = Except.error e →
      (mainRun w).1 = Except.error e ∧
      (mainRun w).2.map (fun s => (s.filename, s.success))
        = [(artifactName "all_codes" (w.clock 0), true),
           (artifactName "cms_codes" (w.clock 1), true),
           (artifactName "nucc_codes" (w.clock 2), false)]) := by
  refine ⟨fun h3 => ⟨?_, ?_⟩, fun h3 h4 => ⟨?_, ?_⟩, fun h3 h4 h5 => ⟨?_, ?_⟩⟩
  · simp only [mainRun, upload_json, h1, h2, h3]
  · simp only [mainRun, upload_json, h1, h2, h3]
    rfl
  · simp only [mainRun, upload_json, h1, h2, h3, h4]
  · simp only [mainRun, upload_json, h1, h2, h3, h4]
    rfl
  · simp only [mainRun, upload_json, h1, h2, h3, h4, h5]
  · simp only [mainRun, upload_json, h1, h2, h3, h4, h5]
    rfl

/-- Claim C9, witness: the amended statement on the concrete world whose
store rejects the cms_codes artifact after having persisted all_codes. -/
theorem storage_failure_behaviour_witness :
    ((⟨Except.ok [[["Code", "Description"], ["99213", "Office visit"]]],
        ⟨Except.ok [], Except.error "unused", fun _ => Except.error "unused"⟩,
        fun _ => "20240101_120000",
        fun f => if pyStartsWith f "cms_codes" then Except.error "disk full"
                 else Except.ok ("file:///output/" ++ f)⟩ : World).store
        (artifactName "all_codes" "20240101_120000") = Except.error "disk full" →
      (mainRun ⟨Except.ok [[["Code", "Description"], ["99213", "Office visit"]]],
          ⟨Except.ok [], Except.error "unused", fun _ => Except.error "unused"⟩,
          fun _ => "20240101_120000",
          fun f => if pyStartsWith f "cms_codes" then Except.error "disk full"
                   else Except.ok ("file:///output/" ++ f)⟩).1
        = Except.error "disk full" ∧
      (mainRun ⟨Except.ok [[["Code", "Description"], ["99213", "Office visit"]]],
          ⟨Except.ok [], Except.error "unused", fun _ => Except.error "unused"⟩,
          fun _ => "20240101_120000",
          fun f => if pyStartsWith f "cms_codes" then Except.error "disk full"
                   else Except.ok ("file:///output/" ++ f)⟩).2.map
        (fun s => (s.filename, s.success))
        = [(artifactName "all_codes" "20240101_120000", false)]) ∧
    ((⟨Except.ok [[["Code", "Description"], ["99213", "Office visit"]]],
        ⟨Except.ok [], Except.error "unused", fun _ => Except.error "unused"⟩,
        fun _ => "20240101_120000",
        fun f => if pyStartsWith f "cms_codes" then Except.error "disk full"
                 else Except.ok ("file:///output/" ++ f)⟩ : World).store
        (artifactName "all_codes" "20240101_120000")
        = Except.ok "file:///output/all_codes_20240101_120000.json" →
      (⟨Except.ok [[["Code", "Description"], ["99213", "Office visit"]]],
        ⟨Except.ok [], Except.error "unused", fun _ => Except.error "unused"⟩,
        fun _ => "20240101_120000",
        fun f => if pyStartsWith f "cms_codes" then Except.error "disk full"
                 else Except.ok ("file:///output/" ++ f)⟩ : World).store
        (artifactName "cms_codes" "20240101_120000") = Except.error "disk full" →
      (mainRun ⟨Except.ok [[["Code", "Description"], ["99213", "Office visit"]]],
          ⟨Except.ok [], Except.error "unused", fun _ => Except.error "unused"⟩,
          fun _ => "20240101_120000",
          fun f => if pyStartsWith f "cms_codes" then Except.error "disk full"
                   else Except.ok ("file:///output/" ++ f)⟩).1
        = Except.error "disk full" ∧
      (mainRun ⟨Except.ok [[["Code", "Description"], ["99213", "Office visit"]]],
          ⟨Except.ok [], Except.error "unused", fun _ => Except.error "unused"⟩,
          fun _ => "20240101_120000",
          fun f => if pyStartsWith f "cms_codes" then Except.error "disk full"
                   else Except.ok ("file:///output/" ++ f)⟩).2.map
        (fun s => (s.filename, s.success))
        = [(artifactName "all_codes" "20240101_120000", true),
           (artifactName "cms_codes" "20240101_120000", false)]) ∧
    ((⟨Except.ok [[["Code", "Description"], ["99213", "Office visit"]]],
        ⟨Except.ok [], Except.error "unused", fun _ => Except.error "unused"⟩,
        fun _ => "20240101_120000",
        fun f => if pyStartsWith f "cms_codes" then Except.error "disk full"
                 else Except.ok ("file:///output/" ++ f)⟩ : World).store
        (artifactName "all_codes" "20240101_120000")
        = Except.ok "file:///output/all_codes_20240101_120000.json" →
      (⟨Except.ok [[["Code", "Description"], ["99213", "Office visit"]]],
        ⟨Except.ok [], Except.error "unused", fun _ => Except.error "unused"⟩,
        fun _ => "20240101_120000",
        fun f => if pyStartsWith f "cms_codes" then Except.error "disk full"
                 else Except.ok ("file:///output/" ++ f)⟩ : World).store
        (artifactName "cms_codes" "20240101_120000") = Except.ok "unused" →
      (⟨Except.ok [[["Code", "Description"], ["99213", "Office visit"]]],
        ⟨Except.ok [], Except.error "unused", fun _ => Except.error "unused"⟩,
        fun _ => "20240101_120000",
        fun f => if pyStartsWith f "cms_codes" then Except.error "disk full"
                 else Except.ok ("file:///output/" ++ f)⟩ : World).store
        (artifactName "nucc_codes" "20240101_120000") = Except.error "disk full" →
      (mainRun ⟨Except.ok [[["Code", "Description"], ["99213", "Office visit"]]],
          ⟨Except.ok [], Except.error "unused", fun _ => Except.error "unused"⟩,
          fun _ => "20240101_120000",
          fun f => if pyStartsWith f "cms_codes" then Except.error "disk full"
                   else Except.ok ("file:///output/" ++ f)⟩).1
        = Except.error "disk full" ∧
      (mainRun ⟨Except.ok [[["Code", "Description"], ["99213", "Office visit"]]],
          ⟨Except.ok [], Except.error "unused", fun _ => Except.error "unused"⟩,
          fun _ => "20240101_120000",
          fun f => if pyStartsWith f "cms_codes" then Except.error "disk full"
                   else Except.ok ("file:///output/" ++ f)⟩).2.map
        (fun s => (s.filename, s.success))
        = [(artifactName "all_codes" "20240101_120000", true),
           (artifactName "cms_codes" "20240101_120000", true),
           (artifactName "nucc_codes" "20240101_120000", false)]) :=
  storage_failure_behaviour
    ⟨Except.ok [[["Code", "Description"], ["99213", "Office visit"]]],
      ⟨Except.ok [], Except.error "unused", fun _ => Except.error "unused"⟩,
      fun _ => "20240101_120000",
      fun f => if pyStartsWith f "cms_codes" then Except.error "disk full"
               else Except.ok ("file:///output/" ++ f)⟩
    [cmsRecord "99213" "Office visit"] []
    "file:///output/all_codes_20240101_120000.json" "unused" "disk full" rfl rfl

/-! ## Claim C10: first csv anchor wins -/

/-- The href returned by the anchor search is the first matching anchor in
document order: it heads the suffix that remains after dropping the
leading non-matching anchors. -/
theorem findCsvLink_first : ∀ (anchors : List (Option String)) (href : String),
    findCsvLink anchors = some href →
    (anchors.dropWhile (fun a => !anchorMatch a)).head? = some (some href) ∧
    isCsvHref href = true := by
  intro anchors
  induction anchors with
  | nil => intro href h; simp [findCsvLink] at h
  | cons a rest ih =>
    intro href h
    cases a with
    | none =>
      simp only [findCsvLink] at h
      obtain ⟨hd, hc⟩ := ih href h
      refine ⟨?_, hc⟩
      simpa [List.dropWhile_cons, anchorMatch] using hd
    | some s =>
      cases hcsv : isCsvHref s with
      | true =>
        simp only [findCsvLink, hcsv, if_true] at h
        injection h with h
        subst h
        refine ⟨?_, hcsv⟩
        simp [List.dropWhile_cons, anchorMatch, hcsv]
      | false =>
        simp only [findCsvLink, hcsv, if_false] at h
        obtain ⟨hd, hc⟩ := ih href h
        refine ⟨?_, hc⟩
        simpa [List.dropWhile_cons, anchorMatch, hcsv] using hd

/-- Claim C10 (confirmed): in the NUCC fallback, when the landing page
contains anchors whose href carries the .csv marker, the adapter selects
the first such anchor in document order (the one heading the suffix left
after the leading non-matching anchors), and the only discovered url it
fetches is the resolution of that href — the request trace is exactly the
fixed csv url, the landing page url, and that single resolved url, so no
later candidate link is ever fetched. -/
theorem first_csv_link_selected (w : NuccWorld) (e : String) (page : LandingPage)
    (href : String)
    (h1 : w.step1 = Except.error e) (h2 : w.landing = Except.ok page)
    (h3 : findCsvLink page.anchors = some href) :
    (page.anchors.dropWhile (fun a => !anchorMatch a)).head? = some (some href) ∧
    isCsvHref href = true ∧
    (nuccScrape w).2 = [nucc_csv_url, nucc_base_url, resolveUrl nucc_base_url href] := by
  obtain ⟨hd, hc⟩ := findCsvLink_first page.anchors href h3
  refine ⟨hd, hc, ?_⟩
  simp only [nuccScrape, h1, h2, h3]

/-- Claim C10, witness: a landing page with two candidate csv anchors; the
first one is selected and resolved against the base url, and it is the
only discovered url in the request trace. -/
theorem first_csv_link_selected_witness :
    (([none, some "index.html", some "files/a.csv", some "files/b.csv"] :
          List (Option String)).dropWhile (fun a => !anchorMatch a)).head?
      = some (some "files/a.csv") ∧
    isCsvHref "files/a.csv" = true ∧
    (nuccScrape ⟨Except.error "HTTP 403",
        Except.ok ⟨[none, some "index.html", some "files/a.csv", some "files/b.csv"], []⟩,
        fun _ => Except.ok []⟩).2
      = [nucc_csv_url, nucc_base_url, resolveUrl nucc_base_url "files/a.csv"] :=
  first_csv_link_selected
    ⟨Except.error "HTTP 403",
      Except.ok ⟨[none, some "index.html", some "files/a.csv", some "files/b.csv"], []⟩,
      fun _ => Except.ok []⟩
    "HTTP 403"
    ⟨[none, some "index.html", some "files/a.csv", some "files/b.csv"], []⟩
    "files/a.csv" rfl rfl rfl
